import Mathlib

/-!
Verification development for the NFL-Counterfactual frontend fragment.

The repository is a client-side page that parses a free-text football play
description via a remote API and runs Monte Carlo simulations of the parsed
play. This file gives a shallow embedding of the page state and of the three
request handlers of the builder page, of the submit handler of the simpler
builder page, and of the health view, and proves properties of them.

Numbers exchanged with the API are embedded as rationals; JSON payloads as an
inductive value type. Each asynchronous handler is embedded as a function from
the page state and the outcome of the single fetch it performs to the list of
issued requests together with the final state; the state at the point where
the request is outstanding is a separate definition.
-/

namespace NFLCounterfactual

/-- JSON values exchanged with the API. The normalized play spec returned by
the parse endpoint is opaque to this fragment and is embedded as an arbitrary
JSON value. -/
inductive JVal where
  | null
  | bool (b : Bool)
  | num (q : ℚ)
  | str (s : String)
  | arr (elems : List JVal)
  | obj (fields : List (String × JVal))

/-- JavaScript truthiness of a JSON value, as tested by the handler guards. -/
def JVal.truthy : JVal → Bool
  | .null => false
  | .bool b => b
  | .num q => q != 0
  | .str s => s != ""
  | .arr _ => true
  | .obj _ => true

/-- The data stored by setResult after a successful parse: the fields the page
reads from the parse response. A missing field is embedded as none. -/
structure ParseData where
  spec : Option JVal
  warnings : Option (List String)

/-- SimSummary: aggregate statistics returned by the simulate endpoint. -/
structure SimSummary where
  yards_mean : ℚ
  yards_p10 : ℚ
  yards_p50 : ℚ
  yards_p90 : ℚ
  td_rate : ℚ
  fg_rate : ℚ
  turnover_rate : ℚ
  assumptions : List String
  seed : ℚ

/-- Result tag of one simulated play within a drive. -/
inductive PlayResult where
  | GAIN
  | FIRST_DOWN
  | TOUCHDOWN
  | TURNOVER_ON_DOWNS
  | FIELD_GOAL_GOOD
  | FIELD_GOAL_MISS
  | PUNT

/-- DrivePlay: one simulated play within a drive. -/
structure DrivePlay where
  down : ℚ
  distance : ℚ
  yardline_100 : ℚ
  call_type : String
  yards : ℚ
  result : PlayResult

/-- Terminal outcome tag of a simulated drive. -/
inductive DriveEnded where
  | TD
  | FG_GOOD
  | FG_MISS
  | PUNT
  | DOWNS
  | EXHAUSTED

/-- DriveSummary: the play-by-play drive trace returned by the drive endpoint. -/
structure DriveSummary where
  plays : List DrivePlay
  points_for_offense : ℚ
  time_elapsed_seconds : ℚ
  ended : DriveEnded

/-- The builder page state: one field per useState hook of BuilderPage. The
seed field of type number or empty string is embedded as an optional rational,
none standing for the empty string. -/
structure PageState where
  text : String
  offense : String
  defense : String
  result : Option ParseData
  warning : Option String
  loading : Bool
  n : ℚ
  seed : Option ℚ
  sim : Option SimSummary
  drive : Option DriveSummary

/-- State of the simpler builder page, which has no simulation controls. -/
structure SubmitState where
  text : String
  offense : String
  defense : String
  result : Option ParseData
  warning : Option String
  loading : Bool

/-- An issued HTTP request: method, URL, and the serialized JSON object body
as an ordered list of key and value pairs. -/
structure Request where
  method : String
  url : String
  body : List (String × JVal)

/-- API base address: the environment-supplied value when set, with nullish
coalescing to the local default otherwise. -/
def apiBase (env : Option String) : String :=
  env.getD "http://localhost:8000"

/-- The health view reads the environment value through a non-null assertion
with no fallback; an unset value is interpolated into the URL template literal
as the string undefined. -/
def healthBase (env : Option String) : String :=
  match env with
  | some b => b
  | none => "undefined"

/-- URL fetched by the health view. -/
def healthRequestUrl (env : Option String) : String :=
  healthBase env ++ "/health"

/-- Serialization of the parse request body with keys text, offense, defense. -/
def parseBodyFields (text offense defense : String) : List (String × JVal) :=
  [("text", .str text), ("offense", .str offense), ("defense", .str defense)]

/-- Serialization of the body of both simulate requests. JSON.stringify omits
an object property whose value is undefined, so no seed key is emitted when
the seed state is the empty string (embedded as none). -/
def simulateBodyFields (spec : JVal) (n : ℚ) (seed : Option ℚ) :
    List (String × JVal) :=
  [("spec", spec), ("n", .num n)] ++
    (match seed with
     | none => []
     | some k => [("seed", .num k)])

/-- Outcome of the single fetch performed by a parse handler: a thrown network
error carrying the error message, a response with a non-2xx status, or a
successful response carrying the decoded data. -/
inductive ParseOutcome where
  | networkError (msg : String)
  | httpFail (status : ℕ)
  | ok (data : ParseData)

/-- Outcome of the fetch performed by the single-play simulate handler. -/
inductive SimOutcome where
  | networkError (msg : String)
  | httpFail (status : ℕ)
  | ok (data : SimSummary)

/-- Outcome of the fetch performed by the drive simulate handler. -/
inductive DriveOutcome where
  | networkError (msg : String)
  | httpFail (status : ℕ)
  | ok (data : DriveSummary)

/-- Whether a parse outcome is a failure (caught by the catch block). -/
def ParseOutcome.isFail : ParseOutcome → Bool
  | .ok _ => false
  | _ => true

/-- Whether a simulate outcome is a failure. -/
def SimOutcome.isFail : SimOutcome → Bool
  | .ok _ => false
  | _ => true

/-- Whether a drive outcome is a failure. -/
def DriveOutcome.isFail : DriveOutcome → Bool
  | .ok _ => false
  | _ => true

/-- The guard value tested by both simulate handlers: the stored spec when a
parse result is stored, its spec property is present and the property value is
truthy; none otherwise. -/
def storedSpec (s : PageState) : Option JVal :=
  match s.result with
  | none => none
  | some r =>
    match r.spec with
    | none => none
    | some v => if v.truthy then some v else none

/-- State of the builder page after the synchronous prefix of onParse, while
its request is outstanding: loading set, warning, result, sim and drive
cleared. -/
def onParseStart (s : PageState) : PageState :=
  { s with loading := true, warning := none, result := none,
           sim := none, drive := none }

/-- The request issued by onParse. -/
def parseFreeformRequest (env : Option String) (s : PageState) : Request :=
  { method := "POST"
    url := apiBase env ++ "/parse-freeform"
    body := parseBodyFields s.text s.offense s.defense }

/-- Warning string built from the warnings array of the parse response. -/
def joinWarnings (ws : List String) : String :=
  String.intercalate " | " ws

/-- onParse of BuilderPage: clears warning, result, sim and drive, sets
loading, issues one POST to the parse endpoint, then on success stores the
data and surfaces any warnings, on a non-2xx status or a thrown error stores a
warning string, and finally clears loading. -/
def onParse (env : Option String) (s : PageState) (o : ParseOutcome) :
    List Request × PageState :=
  let s1 := onParseStart s
  let s2 :=
    match o with
    | .ok data =>
      let sr := { s1 with result := some data }
      match data.warnings with
      | some ws =>
        if ws.length != 0 then { sr with warning := some (joinWarnings ws) }
        else sr
      | none => sr
    | .httpFail status =>
      { s1 with warning := some ("HTTP " ++ toString status) }
    | .networkError msg =>
      { s1 with warning := some (if msg == "" then "Request failed" else msg) }
  ([parseFreeformRequest env s], { s2 with loading := false })

/-- State of the builder page after the synchronous prefix of onSimulatePlay,
while its request is outstanding. -/
def onSimulatePlayStart (s : PageState) : PageState :=
  { s with loading := true, warning := none, sim := none }

/-- The request issued by onSimulatePlay: the stored spec verbatim, the
current sample count n, and the optional seed. -/
def simulateRequest (env : Option String) (spec : JVal) (s : PageState) :
    Request :=
  { method := "POST"
    url := apiBase env ++ "/simulate"
    body := simulateBodyFields spec s.n s.seed }

/-- onSimulatePlay of BuilderPage: returns without any effect unless a parse
result with a truthy spec property is stored; otherwise sets loading, clears
warning and sim, issues one POST to the simulate endpoint, stores the summary
or a warning, and finally clears loading. -/
def onSimulatePlay (env : Option String) (s : PageState) (o : SimOutcome) :
    List Request × PageState :=
  match storedSpec s with
  | none => ([], s)
  | some spec =>
    let s1 := onSimulatePlayStart s
    let s2 :=
      match o with
      | .ok data => { s1 with sim := some data }
      | .httpFail status =>
        { s1 with warning := some ("HTTP " ++ toString status) }
      | .networkError msg =>
        { s1 with
          warning := some (if msg == "" then "Sim request failed" else msg) }
    ([simulateRequest env spec s], { s2 with loading := false })

/-- State of the builder page after the synchronous prefix of onSimulateDrive,
while its request is outstanding. -/
def onSimulateDriveStart (s : PageState) : PageState :=
  { s with loading := true, warning := none, drive := none }

/-- The request issued by onSimulateDrive: the stored spec verbatim, the
repetition count fixed to 1, and the optional seed. -/
def driveRequest (env : Option String) (spec : JVal) (s : PageState) :
    Request :=
  { method := "POST"
    url := apiBase env ++ "/simulate-drive"
    body := simulateBodyFields spec 1 s.seed }

/-- onSimulateDrive of BuilderPage: same guard as onSimulatePlay; sets
loading, clears warning and drive, issues one POST to the drive endpoint,
stores the trace or a warning, and finally clears loading. -/
def onSimulateDrive (env : Option String) (s : PageState) (o : DriveOutcome) :
    List Request × PageState :=
  match storedSpec s with
  | none => ([], s)
  | some spec =>
    let s1 := onSimulateDriveStart s
    let s2 :=
      match o with
      | .ok data => { s1 with drive := some data }
      | .httpFail status =>
        { s1 with warning := some ("HTTP " ++ toString status) }
      | .networkError msg =>
        { s1 with
          warning := some (if msg == "" then "Drive sim failed" else msg) }
    ([driveRequest env spec s], { s2 with loading := false })

/-- State of the simpler builder page after the synchronous prefix of
onSubmit, while its request is outstanding. -/
def onSubmitStart (t : SubmitState) : SubmitState :=
  { t with loading := true, warning := none, result := none }

/-- The request issued by onSubmit of the simpler builder page. -/
def submitRequest (env : Option String) (t : SubmitState) : Request :=
  { method := "POST"
    url := apiBase env ++ "/parse-freeform"
    body := parseBodyFields t.text t.offense t.defense }

/-- onSubmit of the simpler builder page: clears warning and result, sets
loading, issues one POST to the parse endpoint, stores the data and surfaces
warnings on success, stores a warning string on failure, and finally clears
loading. -/
def onSubmit (env : Option String) (t : SubmitState) (o : ParseOutcome) :
    List Request × SubmitState :=
  let t1 := onSubmitStart t
  let t2 :=
    match o with
    | .ok data =>
      let tr := { t1 with result := some data }
      match data.warnings with
      | some ws =>
        if ws.length != 0 then { tr with warning := some (joinWarnings ws) }
        else tr
      | none => tr
    | .httpFail status =>
      { t1 with warning := some ("HTTP " ++ toString status) }
    | .networkError msg =>
      { t1 with warning := some (if msg == "" then "Request failed" else msg) }
  ([submitRequest env t], { t2 with loading := false })

/-- Model of the JavaScript toUpperCase method over the basic Latin alphabet
used for team codes. -/
def jsToUpper (s : String) : String :=
  s.map Char.toUpper

/-- Change handler of the offense input of BuilderPage: stores the uppercased
entered value. -/
def onOffenseChange (s : PageState) (value : String) : PageState :=
  { s with offense := jsToUpper value }

/-- Change handler of the defense input of BuilderPage. -/
def onDefenseChange (s : PageState) (value : String) : PageState :=
  { s with defense := jsToUpper value }

/-- Change handler of the offense input of the simpler builder page. -/
def onOffenseChangeSubmit (t : SubmitState) (value : String) : SubmitState :=
  { t with offense := jsToUpper value }

/-- Change handler of the defense input of the simpler builder page. -/
def onDefenseChangeSubmit (t : SubmitState) (value : String) : SubmitState :=
  { t with defense := jsToUpper value }

/-- The toFixed method of a nonnegative number with one fraction digit: the
integer n for which n divided by 10 is closest to the argument, ties resolved
to the larger n, rendered with one digit after the point. -/
def toFixed1Nonneg (x : ℚ) : String :=
  toString ((Int.floor (x * 10 + 1 / 2)).toNat / 10) ++ "." ++
    toString ((Int.floor (x * 10 + 1 / 2)).toNat % 10)

/-- The toFixed method with one fraction digit: a negative argument is negated
first and the sign prepended. -/
def toFixed1 (x : ℚ) : String :=
  if x < 0 then "-" ++ toFixed1Nonneg (-x) else toFixed1Nonneg x

/-- Rendered TD rate cell text of the simulation summary grid. -/
def tdRateText (sim : SimSummary) : String :=
  toFixed1 (sim.td_rate * 100) ++ "%"

/-- Rendered FG rate cell text. -/
def fgRateText (sim : SimSummary) : String :=
  toFixed1 (sim.fg_rate * 100) ++ "%"

/-- Rendered turnover rate cell text. -/
def turnoverRateText (sim : SimSummary) : String :=
  toFixed1 (sim.turnover_rate * 100) ++ "%"

/-- A builder page state with no stored parse result, such as the initial
state of the page (the initial seed of the page is a random number; an
arbitrary value stands in for it here). -/
def exState : PageState :=
  { text := "3rd & 8 on DAL 42, 2:05 Q4, down 3, deep middle pass, 11 personnel"
    offense := "DAL"
    defense := "PHI"
    result := none
    warning := none
    loading := false
    n := 1000
    seed := some 42
    sim := none
    drive := none }

/-- A concrete opaque play spec value. -/
def exSpec : JVal :=
  .obj [("play_type", .str "PASS"), ("depth", .str "DEEP")]

/-- A concrete stored parse result whose spec property is present. -/
def exParsed : ParseData :=
  { spec := some exSpec, warnings := none }

/-- A builder page state holding a stored parse result with a spec. -/
def exSpecState : PageState :=
  { exState with result := some exParsed }

/-- A concrete simulation summary. -/
def exSim : SimSummary :=
  { yards_mean := 5
    yards_p10 := -1
    yards_p50 := 4
    yards_p90 := 12
    td_rate := 231 / 1000
    fg_rate := 0
    turnover_rate := 1 / 10
    assumptions := ["baseline model"]
    seed := 42 }

/-- C1: in every state in which no parse result with a spec field is stored,
invoking the single-play simulation action or the drive simulation action is
a no-op: no request is issued and the state is returned unchanged. -/
theorem C1_simulate_noop_without_spec (env : Option String) (s : PageState)
    (o1 : SimOutcome) (o2 : DriveOutcome)
    (h : s.result.bind (fun r => r.spec) = none) :
    onSimulatePlay env s o1 = ([], s) ∧ onSimulateDrive env s o2 = ([], s) := by
  have hs : storedSpec s = none := by
    unfold storedSpec
    cases hr : s.result with
    | none => rfl
    | some r =>
      have hspec : r.spec = none := by
        simpa [hr] using h
      simp [hspec]
  constructor <;> simp [onSimulatePlay, onSimulateDrive, hs]

/-- Witness for C1 at the initial page state. -/
theorem C1_simulate_noop_without_spec_witness :
    exState.result.bind (fun r => r.spec) = none ∧
    onSimulatePlay none exState (.httpFail 500) = ([], exState) ∧
    onSimulateDrive none exState (.networkError "x") = ([], exState) :=
  ⟨rfl,
   (C1_simulate_noop_without_spec none exState (.httpFail 500)
      (.networkError "x") rfl).1,
   (C1_simulate_noop_without_spec none exState (.httpFail 500)
      (.networkError "x") rfl).2⟩

/-- C2: whenever a parse result with spec v is stored, the single-play
simulation handler issues exactly one request to the simulate endpoint whose
body holds v verbatim together with the current sample count n, and the drive
handler issues exactly one request to the drive endpoint whose body holds v
verbatim with repetition count 1. -/
theorem C2_simulate_bodies_verbatim (env : Option String) (s : PageState)
    (v : JVal) (o1 : SimOutcome) (o2 : DriveOutcome)
    (h : storedSpec s = some v) :
    (onSimulatePlay env s o1).1 =
      [{ method := "POST"
         url := apiBase env ++ "/simulate"
         body := simulateBodyFields v s.n s.seed }] ∧
    (onSimulateDrive env s o2).1 =
      [{ method := "POST"
         url := apiBase env ++ "/simulate-drive"
         body := simulateBodyFields v 1 s.seed }] := by
  constructor <;>
    simp [onSimulatePlay, onSimulateDrive, h, simulateRequest, driveRequest]

/-- Witness for C2 at a state holding a stored spec. -/
theorem C2_simulate_bodies_verbatim_witness :
    storedSpec exSpecState = some exSpec ∧
    (onSimulatePlay none exSpecState (.httpFail 500)).1 =
      [{ method := "POST"
         url := "http://localhost:8000/simulate"
         body := [("spec", exSpec), ("n", .num 1000), ("seed", .num 42)] }] ∧
    (onSimulateDrive none exSpecState (.httpFail 500)).1 =
      [{ method := "POST"
         url := "http://localhost:8000/simulate-drive"
         body := [("spec", exSpec), ("n", .num 1), ("seed", .num 42)] }] := by
  refine ⟨rfl, ?_, ?_⟩
  · exact (C2_simulate_bodies_verbatim none exSpecState exSpec
      (.httpFail 500) (.httpFail 500) rfl).1
  · exact (C2_simulate_bodies_verbatim none exSpecState exSpec
      (.httpFail 500) (.httpFail 500) rfl).2

/-- C3: on a response with a non-2xx status, both parse handlers leave a
warning carrying the numeric HTTP status code and do not populate the parse
result state. -/
theorem C3_http_error_warning (env : Option String) (s : PageState)
    (t : SubmitState) (status : ℕ) :
    (onParse env s (.httpFail status)).2.warning =
      some ("HTTP " ++ toString status) ∧
    (onParse env s (.httpFail status)).2.result = none ∧
    (onSubmit env t (.httpFail status)).2.warning =
      some ("HTTP " ++ toString status) ∧
    (onSubmit env t (.httpFail status)).2.result = none := by
  refine ⟨rfl, rfl, rfl, rfl⟩

/-- C6: every submission of the parse form issues exactly one POST request,
to the parse-freeform endpoint, whose JSON body is exactly the object with
keys text, offense, defense holding the current state values; this holds for
both builder pages. -/
theorem C6_parse_request_exact (env : Option String) (s : PageState)
    (t : SubmitState) (o1 o2 : ParseOutcome) :
    (onParse env s o1).1 =
      [{ method := "POST"
         url := apiBase env ++ "/parse-freeform"
         body := [("text", .str s.text), ("offense", .str s.offense),
                  ("defense", .str s.defense)] }] ∧
    (onSubmit env t o2).1 =
      [{ method := "POST"
         url := apiBase env ++ "/parse-freeform"
         body := [("text", .str t.text), ("offense", .str t.offense),
                  ("defense", .str t.defense)] }] := by
  constructor <;>
    simp [onParse, onSubmit, parseFreeformRequest, submitRequest,
      parseBodyFields]

/-- A builder page state holding a stored spec and a stored simulation
summary. -/
def ex4State : PageState :=
  { exSpecState with sim := some exSim }

/-- C4 counterexample: the claim that every prior successful result survives
a failed operation unchanged is false: at a state holding a simulation
summary, a single-play simulation that fails with a network error leaves the
summary cleared, because the handler clears it before issuing the request. -/
theorem C4_counterexample :
    ex4State.sim = some exSim ∧
    (onSimulatePlay none ex4State (.networkError "NetworkError")).2.sim =
      none := by
  exact ⟨rfl, rfl⟩

/-- C4 amended: for every operation that fails with a network error or a
non-2xx status, the loading flag is reset and all state the operation does
not itself clear is unchanged; but each operation clears its own prior result
before issuing its request (parse clears the parse result and both
summaries, single-play simulation clears the simulation summary, drive
simulation clears the drive summary), so those results are null after the
failure rather than restored. -/
theorem C4_amended_failure_recovery (env : Option String) (s : PageState)
    (op : ParseOutcome) (os : SimOutcome) (od : DriveOutcome)
    (hp : op.isFail = true) (hs : os.isFail = true)
    (hd : od.isFail = true) :
    ((onParse env s op).2.loading = false ∧
     (onParse env s op).2.result = none ∧
     (onParse env s op).2.sim = none ∧
     (onParse env s op).2.drive = none ∧
     (onParse env s op).2.text = s.text ∧
     (onParse env s op).2.offense = s.offense ∧
     (onParse env s op).2.defense = s.defense ∧
     (onParse env s op).2.n = s.n ∧
     (onParse env s op).2.seed = s.seed) ∧
    (∀ v : JVal, storedSpec s = some v →
     (onSimulatePlay env s os).2.loading = false ∧
     (onSimulatePlay env s os).2.sim = none ∧
     (onSimulatePlay env s os).2.result = s.result ∧
     (onSimulatePlay env s os).2.drive = s.drive ∧
     (onSimulatePlay env s os).2.text = s.text ∧
     (onSimulatePlay env s os).2.offense = s.offense ∧
     (onSimulatePlay env s os).2.defense = s.defense ∧
     (onSimulatePlay env s os).2.n = s.n ∧
     (onSimulatePlay env s os).2.seed = s.seed) ∧
    (∀ v : JVal, storedSpec s = some v →
     (onSimulateDrive env s od).2.loading = false ∧
     (onSimulateDrive env s od).2.drive = none ∧
     (onSimulateDrive env s od).2.result = s.result ∧
     (onSimulateDrive env s od).2.sim = s.sim ∧
     (onSimulateDrive env s od).2.text = s.text ∧
     (onSimulateDrive env s od).2.offense = s.offense ∧
     (onSimulateDrive env s od).2.defense = s.defense ∧
     (onSimulateDrive env s od).2.n = s.n ∧
     (onSimulateDrive env s od).2.seed = s.seed) := by
  refine ⟨?_, ?_, ?_⟩
  · cases op with
    | ok data => simp [ParseOutcome.isFail] at hp
    | httpFail status =>
      simp [onParse, onParseStart]
    | networkError msg =>
      simp [onParse, onParseStart]
  · intro v hv
    cases os with
    | ok data => simp [SimOutcome.isFail] at hs
    | httpFail status =>
      simp [onSimulatePlay, onSimulatePlayStart, hv]
    | networkError msg =>
      simp [onSimulatePlay, onSimulatePlayStart, hv]
  · intro v hv
    cases od with
    | ok data => simp [DriveOutcome.isFail] at hd
    | httpFail status =>
      simp [onSimulateDrive, onSimulateDriveStart, hv]
    | networkError msg =>
      simp [onSimulateDrive, onSimulateDriveStart, hv]

/-- Witness for the amended C4: a failing first parse at the initial state
clears loading, and a failing drive simulation at a state holding a spec and
a simulation summary leaves that summary untouched. -/
theorem C4_amended_failure_recovery_witness :
    ParseOutcome.isFail (.httpFail 500) = true ∧
    SimOutcome.isFail (.networkError "x") = true ∧
    DriveOutcome.isFail (.httpFail 503) = true ∧
    storedSpec ex4State = some exSpec ∧
    (onParse none exState (.httpFail 500)).2.loading = false ∧
    (onSimulateDrive none ex4State (.httpFail 503)).2.sim = ex4State.sim := by
  refine ⟨rfl, rfl, rfl, rfl, ?_, ?_⟩
  · exact (C4_amended_failure_recovery none exState (.httpFail 500)
      (.networkError "x") (.httpFail 503) rfl rfl rfl).1.1
  · exact ((C4_amended_failure_recovery none ex4State (.httpFail 500)
      (.networkError "x") (.httpFail 503) rfl rfl rfl).2.2
      exSpec rfl).2.2.2.1

/-- C5 counterexample: the claim that the health view defaults to the local
loopback address is false: with no environment value, the health view does
not use the loopback default; the non-null asserted value is interpolated as
the string undefined. -/
theorem C5_counterexample :
    healthBase none ≠ "http://localhost:8000" ∧
    healthBase none = "undefined" ∧
    healthRequestUrl none = "undefined/health" := by
  refine ⟨?_, rfl, rfl⟩
  decide

/-- C5 amended: the builder pages use the environment-supplied base address
when one is set and default to the local loopback address otherwise; the
health view uses the environment value directly with no default, so an unset
value yields a URL built from the string undefined. -/
theorem C5_amended_api_base (env : Option String) (v : String) (s : PageState)
    (t : SubmitState) :
    apiBase (some v) = v ∧
    apiBase none = "http://localhost:8000" ∧
    (parseFreeformRequest env s).url = apiBase env ++ "/parse-freeform" ∧
    (submitRequest env t).url = apiBase env ++ "/parse-freeform" ∧
    healthBase (some v) = v ∧
    healthBase none = "undefined" ∧
    healthRequestUrl env = healthBase env ++ "/health" := by
  exact ⟨rfl, rfl, rfl, rfl, rfl, rfl, rfl⟩

/-- C7: for every invocation of parse, submit, single-play simulation or
drive simulation that issues a request, the loading flag is true in the state
in which the request is outstanding and false in the final state, on every
outcome. -/
theorem C7_loading_flag (env : Option String) (s : PageState)
    (t : SubmitState) (op oq : ParseOutcome) (os : SimOutcome)
    (od : DriveOutcome) :
    (onParseStart s).loading = true ∧
    (onParse env s op).2.loading = false ∧
    (onSubmitStart t).loading = true ∧
    (onSubmit env t oq).2.loading = false ∧
    (∀ v : JVal, storedSpec s = some v →
      (onSimulatePlayStart s).loading = true ∧
      (onSimulatePlay env s os).2.loading = false ∧
      (onSimulateDriveStart s).loading = true ∧
      (onSimulateDrive env s od).2.loading = false) := by
  refine ⟨rfl, rfl, rfl, rfl, ?_⟩
  intro v h
  refine ⟨rfl, ?_, rfl, ?_⟩
  · simp [onSimulatePlay, h]
  · simp [onSimulateDrive, h]

/-- Witness for C7: a failing first parse at the initial state, and failing
simulations at a state holding a stored spec. -/
theorem C7_loading_flag_witness :
    (onParseStart exState).loading = true ∧
    (onParse none exState (.httpFail 500)).2.loading = false ∧
    storedSpec exSpecState = some exSpec ∧
    (onSimulatePlay none exSpecState (.httpFail 500)).2.loading = false := by
  refine ⟨?_, ?_, rfl, ?_⟩
  · exact (C7_loading_flag none exState
      { text := "", offense := "", defense := "", result := none,
        warning := none, loading := false }
      (.httpFail 500) (.httpFail 500) (.httpFail 500) (.httpFail 500)).1
  · exact (C7_loading_flag none exState
      { text := "", offense := "", defense := "", result := none,
        warning := none, loading := false }
      (.httpFail 500) (.httpFail 500) (.httpFail 500) (.httpFail 500)).2.1
  · exact ((C7_loading_flag none exSpecState
      { text := "", offense := "", defense := "", result := none,
        warning := none, loading := false }
      (.httpFail 500) (.httpFail 500) (.httpFail 500)
      (.httpFail 500)).2.2.2.2 exSpec rfl).2.1

/-- A simulation summary whose three rates are all 0.231. -/
def exSim8 : SimSummary :=
  { yards_mean := 5
    yards_p10 := -1
    yards_p50 := 4
    yards_p90 := 12
    td_rate := 231 / 1000
    fg_rate := 231 / 1000
    turnover_rate := 231 / 1000
    assumptions := []
    seed := 7 }

/-- C8: a stored summary with td_rate 0.231 renders the TD rate cell as the
rate times 100 rounded to one decimal place, and the same rendering applies
to the FG rate and turnover rate cells. -/
theorem C8_rate_rendering (s1 s2 s3 : SimSummary)
    (h1 : s1.td_rate = 231 / 1000) (h2 : s2.fg_rate = 231 / 1000)
    (h3 : s3.turnover_rate = 231 / 1000) :
    tdRateText s1 = "23.1%" ∧ fgRateText s2 = "23.1%" ∧
    turnoverRateText s3 = "23.1%" := by
  have hfl : Int.floor ((231 / 1000 * 100 : ℚ) * 10 + 1 / 2) = 231 := by
    rw [Int.floor_eq_iff]
    constructor <;> norm_num
  have hnn : ¬ ((231 / 1000 * 100 : ℚ) < 0) := by norm_num
  have key : toFixed1 (231 / 1000 * 100 : ℚ) = "23.1" := by
    unfold toFixed1
    rw [if_neg hnn]
    unfold toFixed1Nonneg
    rw [hfl]
    rfl
  unfold tdRateText fgRateText turnoverRateText
  rw [h1, h2, h3, key]
  exact ⟨rfl, rfl, rfl⟩

/-- Witness for C8 at a concrete summary. -/
theorem C8_rate_rendering_witness :
    exSim8.td_rate = 231 / 1000 ∧ exSim8.fg_rate = 231 / 1000 ∧
    exSim8.turnover_rate = 231 / 1000 ∧ tdRateText exSim8 = "23.1%" ∧
    fgRateText exSim8 = "23.1%" ∧ turnoverRateText exSim8 = "23.1%" := by
  refine ⟨rfl, rfl, rfl, ?_, ?_, ?_⟩
  · exact (C8_rate_rendering exSim8 exSim8 exSim8 rfl rfl rfl).1
  · exact (C8_rate_rendering exSim8 exSim8 exSim8 rfl rfl rfl).2.1
  · exact (C8_rate_rendering exSim8 exSim8 exSim8 rfl rfl rfl).2.2

/-- A builder page state holding a stored spec and an empty seed state. -/
def exNoSeedState : PageState :=
  { exSpecState with seed := none }

/-- C9: when the seed state is the empty string, the serialized body of both
simulate requests has exactly the keys spec and n, with no seed key;
otherwise the seed field holds the numeric value of the seed state. -/
theorem C9_seed_serialization (env : Option String) (s : PageState)
    (v : JVal) (os : SimOutcome) (od : DriveOutcome)
    (h : storedSpec s = some v) :
    (s.seed = none →
      ((onSimulatePlay env s os).1.map fun r => r.body.map Prod.fst) =
        [["spec", "n"]] ∧
      ((onSimulateDrive env s od).1.map fun r => r.body.map Prod.fst) =
        [["spec", "n"]]) ∧
    (∀ k : ℚ, s.seed = some k →
      ((onSimulatePlay env s os).1.map fun r => r.body) =
        [[("spec", v), ("n", .num s.n), ("seed", .num k)]] ∧
      ((onSimulateDrive env s od).1.map fun r => r.body) =
        [[("spec", v), ("n", .num 1), ("seed", .num k)]]) := by
  constructor
  · intro hseed
    constructor <;>
      simp [onSimulatePlay, onSimulateDrive, h, simulateRequest,
        driveRequest, simulateBodyFields, hseed]
  · intro k hseed
    constructor <;>
      simp [onSimulatePlay, onSimulateDrive, h, simulateRequest,
        driveRequest, simulateBodyFields, hseed]

/-- Witness for C9 at a state with an empty seed and a state with seed 42. -/
theorem C9_seed_serialization_witness :
    storedSpec exNoSeedState = some exSpec ∧ exNoSeedState.seed = none ∧
    ((onSimulatePlay none exNoSeedState (.httpFail 500)).1.map
      fun r => r.body.map Prod.fst) = [["spec", "n"]] ∧
    storedSpec exSpecState = some exSpec ∧ exSpecState.seed = some 42 ∧
    ((onSimulatePlay none exSpecState (.httpFail 500)).1.map
      fun r => r.body) =
        [[("spec", exSpec), ("n", .num 1000), ("seed", .num 42)]] := by
  refine ⟨rfl, rfl, ?_, rfl, rfl, ?_⟩
  · exact ((C9_seed_serialization none exNoSeedState exSpec (.httpFail 500)
      (.httpFail 500) rfl).1 rfl).1
  · exact ((C9_seed_serialization none exSpecState exSpec (.httpFail 500)
      (.httpFail 500) rfl).2 42 rfl).1

/-- C10: after a change event on the offense or defense input of either
builder page, the stored state equals the uppercase form of the entered
value, and a parse request issued from such a state carries the uppercased
team codes in its body. -/
theorem C10_uppercase_team_codes (env : Option String) (s : PageState)
    (t : SubmitState) (v w : String) (o : ParseOutcome) :
    (onOffenseChange s v).offense = jsToUpper v ∧
    (onDefenseChange s w).defense = jsToUpper w ∧
    (onOffenseChangeSubmit t v).offense = jsToUpper v ∧
    (onDefenseChangeSubmit t w).defense = jsToUpper w ∧
    ((onParse env (onOffenseChange (onDefenseChange s w) v) o).1.map
      fun r => r.body) =
        [[("text", .str s.text), ("offense", .str (jsToUpper v)),
          ("defense", .str (jsToUpper w))]] := by
  refine ⟨rfl, rfl, rfl, rfl, ?_⟩
  simp [onParse, parseFreeformRequest, parseBodyFields, onOffenseChange,
    onDefenseChange]

end NFLCounterfactual
